import Mathlib

/-!
Verification of the response-normalization layer and batch-processing loop of
`streamlit_app.py` (a batch web-search app driving Gemini and OpenAI).

Modelling conventions for the shallow embedding:
- Python attribute probing (`hasattr(x, 'f') and x.f`) over the providers'
  response objects is modelled by `Option` fields: `some` means the attribute
  is present (and truthy where the code also tests truthiness), `none` means
  it is absent.
- Python exceptions are modelled by `Except String`: an adapter/network
  failure or a raising normalizer yields `Except.error msg`, and a `try/except`
  block is a `match` on that value.
- `response.candidates[0]` on an empty list raises `IndexError`
  ("list index out of range"); this is the one place the Gemini normalizer can
  itself raise.
- Strings, booleans and lists carry over directly.
-/

/-- Which backend produced a result (the `"provider"` dict field). -/
inductive Provider where
  | gemini
  | openai
deriving DecidableEq, Repr

/-- One entry of `cited_sources`: the dict `{"title": ..., "url": ...}` built by
the normalizers.  The values are `Option String` because the Gemini path copies
`chunk.web.title` / `chunk.web.uri` without checking they are set, so `None`
values can be stored. -/
structure CitedSource where
  title : Option String
  url : Option String
deriving DecidableEq, Repr

/-- The uniform record both normalizers and the batch runner's failure path
produce (the `result` dict of `process_prompt_gemini` / `process_prompt_openai`
and of `main`'s `except` branch). -/
structure SearchResult where
  original_prompt : String
  provider : Provider
  web_search_used : Bool
  web_search_queries : List String
  cited_sources : List CitedSource
  final_response : String
deriving DecidableEq, Repr

/-! ### Gemini raw-response shape (the fields `process_prompt_gemini` probes) -/

/-- `chunk.web` payload: `title` and `uri` are optional fields of the SDK
object, read without a presence check. -/
structure GroundingChunkWeb where
  title : Option String
  uri : Option String
deriving DecidableEq, Repr

/-- One element of `grounding_metadata.grounding_chunks`. -/
structure GroundingChunk where
  web : Option GroundingChunkWeb
deriving DecidableEq, Repr

/-- `candidates[0].grounding_metadata`. -/
structure GroundingMetadata where
  web_search_queries : Option (List String)
  grounding_chunks : Option (List GroundingChunk)
deriving DecidableEq, Repr

/-- One element of `candidates[0].content.parts`; `text` present iff
`hasattr(part, 'text')` holds. -/
structure GeminiPart where
  text : Option String
deriving DecidableEq, Repr

/-- `candidates[0].content`. -/
structure GeminiContent where
  parts : Option (List GeminiPart)
deriving DecidableEq, Repr

/-- One element of `response.candidates`. -/
structure GeminiCandidate where
  grounding_metadata : Option GroundingMetadata
  content : Option GeminiContent
deriving DecidableEq, Repr

/-- The raw Gemini response object. -/
structure GeminiResponse where
  candidates : List GeminiCandidate
deriving DecidableEq, Repr

/-! ### OpenAI raw-response shape (the fields `process_prompt_openai` probes) -/

/-- `output.action`; `query` present iff `hasattr(output.action, 'query')`. -/
structure OpenAIAction where
  query : Option String
deriving DecidableEq, Repr

/-- One element of `content.annotations`; `url` / `title` present iff the
corresponding `hasattr` checks hold. -/
structure OpenAIAnnotation where
  url : Option String
  title : Option String
deriving DecidableEq, Repr

/-- One element of `output.content`. -/
structure OpenAIContent where
  annotations : Option (List OpenAIAnnotation)
  text : Option String
deriving DecidableEq, Repr

/-- One element of `response.output`. -/
structure OpenAIOutput where
  action : Option OpenAIAction
  content : Option (List OpenAIContent)
deriving DecidableEq, Repr

/-- The raw OpenAI response object. -/
structure OpenAIResponse where
  output : List OpenAIOutput
deriving DecidableEq, Repr

/-! ### Normalizers -/

/-- The freshly initialized `result` dict both normalizers start from. -/
def initResult (prompt : String) (prov : Provider) : SearchResult :=
  { original_prompt := prompt
    provider := prov
    web_search_used := false
    web_search_queries := []
    cited_sources := []
    final_response := "" }

/-- The `web_search_used` / `web_search_queries` mutation of
`process_prompt_gemini`: inside `if hasattr(gm, 'web_search_queries')`, the
body `if queries:` fires only for a non-empty list (Python truthiness), and
`[str(query) for query in queries]` is the identity on a list of strings. -/
def geminiQueriesFields (gm : GroundingMetadata) : Bool × List String :=
  match gm.web_search_queries with
  | some queries => if queries.isEmpty then (false, []) else (true, queries)
  | none => (false, [])

/-- The `for chunk in chunks` loop of `process_prompt_gemini`: every chunk with
a truthy `web` attribute appends `{"title": chunk.web.title, "url":
chunk.web.uri}` (no check that title or uri are set). -/
def geminiCitedLoop (chunks : List GroundingChunk) (acc : List CitedSource) :
    List CitedSource :=
  match chunks with
  | [] => acc
  | ch :: rest =>
    match ch.web with
    | some w => geminiCitedLoop rest (acc ++ [{ title := w.title, url := w.uri }])
    | none => geminiCitedLoop rest acc

/-- The `cited_sources` mutation of `process_prompt_gemini`: guarded by
`if hasattr(gm, 'grounding_chunks')` and `if chunks:`. -/
def geminiCitedFields (gm : GroundingMetadata) : List CitedSource :=
  match gm.grounding_chunks with
  | some chunks => if chunks.isEmpty then [] else geminiCitedLoop chunks []
  | none => []

/-- The `for part in parts` loop of `process_prompt_gemini`: the first part
with a `text` attribute sets `final_response` and `break`s. -/
def geminiTextLoop (parts : List GeminiPart) (acc : String) : String :=
  match parts with
  | [] => acc
  | part :: rest =>
    match part.text with
    | some t => t
    | none => geminiTextLoop rest acc

/-- `process_prompt_gemini` after a successful network call, given the raw
response.  `response.candidates[0]` raises `IndexError` when `candidates` is
empty; otherwise the three independent field mutations above are applied to
the initialized result. -/
def process_prompt_gemini (prompt : String) (response : GeminiResponse) :
    Except String SearchResult :=
  match response.candidates with
  | [] => Except.error "list index out of range"
  | cand :: _ =>
    let searchFields :=
      match cand.grounding_metadata with
      | some gm => geminiQueriesFields gm
      | none => (false, [])
    let cited :=
      match cand.grounding_metadata with
      | some gm => geminiCitedFields gm
      | none => []
    let finalText :=
      match cand.content with
      | some content =>
        match content.parts with
        | some parts => geminiTextLoop parts ""
        | none => ""
      | none => ""
    Except.ok
      { original_prompt := prompt
        provider := Provider.gemini
        web_search_used := searchFields.1
        web_search_queries := searchFields.2
        cited_sources := cited
        final_response := finalText }

/-- The first `for output in response.output` loop of `process_prompt_openai`:
each output whose `action` has a `query` attribute sets
`web_search_used = True` and appends the query. -/
def openaiQueriesLoop (outputs : List OpenAIOutput) (used : Bool)
    (queries : List String) : Bool × List String :=
  match outputs with
  | [] => (used, queries)
  | o :: rest =>
    match o.action with
    | some action =>
      match action.query with
      | some q => openaiQueriesLoop rest true (queries ++ [q])
      | none => openaiQueriesLoop rest used queries
    | none => openaiQueriesLoop rest used queries

/-- The `for annotation in content.annotations` loop: only annotations with
both a `url` and a `title` attribute are appended. -/
def annotationLoop (annotations : List OpenAIAnnotation)
    (acc : List CitedSource) : List CitedSource :=
  match annotations with
  | [] => acc
  | a :: rest =>
    match a.url, a.title with
    | some u, some t => annotationLoop rest (acc ++ [{ title := some t, url := some u }])
    | _, _ => annotationLoop rest acc

/-- The `for content in output.content` layer of the citation extraction. -/
def contentCitedLoop (contents : List OpenAIContent) (acc : List CitedSource) :
    List CitedSource :=
  match contents with
  | [] => acc
  | c :: rest =>
    match c.annotations with
    | some anns => contentCitedLoop rest (annotationLoop anns acc)
    | none => contentCitedLoop rest acc

/-- The second `for output in response.output` loop of
`process_prompt_openai` (citation extraction across all outputs). -/
def openaiCitedLoop (outputs : List OpenAIOutput) (acc : List CitedSource) :
    List CitedSource :=
  match outputs with
  | [] => acc
  | o :: rest =>
    match o.content with
    | some contents => openaiCitedLoop rest (contentCitedLoop contents acc)
    | none => openaiCitedLoop rest acc

/-- The inner `for content in output.content` loop of the text extraction:
the first content with a `text` attribute sets `final_response` and `break`s
out of this inner loop only. -/
def contentTextLoop (contents : List OpenAIContent) (acc : String) : String :=
  match contents with
  | [] => acc
  | c :: rest =>
    match c.text with
    | some t => t
    | none => contentTextLoop rest acc

/-- The third `for output in response.output` loop of `process_prompt_openai`:
the `break` in the source exits only the inner content loop, so later outputs
overwrite `final_response` set by earlier ones. -/
def openaiTextLoop (outputs : List OpenAIOutput) (acc : String) : String :=
  match outputs with
  | [] => acc
  | o :: rest =>
    match o.content with
    | some contents => openaiTextLoop rest (contentTextLoop contents acc)
    | none => openaiTextLoop rest acc

/-- The body of `process_prompt_openai`'s `try` block after a successful
call: the three sequential extraction loops over the initialized result. -/
def normalize_openai (prompt : String) (response : OpenAIResponse) : SearchResult :=
  let result0 := initResult prompt Provider.openai
  let searchFields :=
    openaiQueriesLoop response.output result0.web_search_used result0.web_search_queries
  let cited := openaiCitedLoop response.output result0.cited_sources
  let finalText := openaiTextLoop response.output result0.final_response
  { result0 with
    web_search_used := searchFields.1
    web_search_queries := searchFields.2
    cited_sources := cited
    final_response := finalText }

/-- `process_prompt_openai`: the whole call-plus-extraction sits inside a
`try/except` that turns any exception into
`result["final_response"] = f"Error: {str(e)}"` on the already-initialized
result, so this function is total. -/
def process_prompt_openai (prompt : String)
    (callResult : Except String OpenAIResponse) : SearchResult :=
  match callResult with
  | Except.ok response => normalize_openai prompt response
  | Except.error e => { initResult prompt Provider.openai with final_response := "Error: " ++ e }

/-! ### Batch runner (the processing loop of `main`, lines 250-271) -/

/-- The `except` branch of `main`'s per-prompt loop: the substituted result on
a raised exception. -/
def errorResult (prov : Provider) (prompt : String) (e : String) : SearchResult :=
  { original_prompt := prompt
    provider := prov
    web_search_used := false
    web_search_queries := []
    cited_sources := []
    final_response := "Error: " ++ e }

/-- One iteration of `main`'s loop: `try` the per-prompt processing, append
its result, or on exception append `errorResult`. -/
def batchEntry (prov : Provider) (step : String → Except String SearchResult)
    (prompt : String) : SearchResult :=
  match step prompt with
  | Except.ok r => r
  | Except.error e => errorResult prov prompt e

/-- `main`'s loop over the prompt list: strictly sequential, one output entry
per prompt, in order. -/
def runBatch (prov : Provider) (step : String → Except String SearchResult)
    (prompts : List String) : List SearchResult :=
  prompts.map (batchEntry prov step)

/-- Per-prompt processing for Gemini: the network call (modelled by the
oracle `call`) may raise, and `process_prompt_gemini` itself may raise on an
empty candidate list; neither is caught before `main`'s `except`. -/
def geminiStep (call : String → Except String GeminiResponse) (prompt : String) :
    Except String SearchResult :=
  (call prompt).bind (process_prompt_gemini prompt)

/-- Per-prompt processing for OpenAI: `process_prompt_openai` catches every
exception internally, so the step never raises into `main`'s `except`. -/
def openaiStep (call : String → Except String OpenAIResponse) (prompt : String) :
    Except String SearchResult :=
  Except.ok (process_prompt_openai prompt (call prompt))

/-- The batch runner instantiated for Gemini. -/
def runBatchGemini (call : String → Except String GeminiResponse)
    (prompts : List String) : List SearchResult :=
  runBatch Provider.gemini (geminiStep call) prompts

/-- The batch runner instantiated for OpenAI. -/
def runBatchOpenai (call : String → Except String OpenAIResponse)
    (prompts : List String) : List SearchResult :=
  runBatch Provider.openai (openaiStep call) prompts

/-! ### Input validation (`main`, lines 220-244)

Python string primitives are re-implemented character by character so that the
embedding is executable by kernel reduction: `splitLines` is `str.split('\n')`
(keeping empty pieces) and `pyStrip` is `str.strip()` (removing ASCII
whitespace from both ends). -/

/-- The characters `str.strip()` removes. -/
def isPyWhitespace (c : Char) : Bool :=
  c = ' ' || c = '\t' || c = '\n' || c = '\r' || c = '\x0b' || c = '\x0c'

/-- Python `str.strip()`. -/
def pyStrip (s : String) : String :=
  String.mk (((s.toList.dropWhile isPyWhitespace).reverse.dropWhile isPyWhitespace).reverse)

/-- Helper for `splitLines`, accumulating the current piece in reverse. -/
def splitLinesAux : List Char → List Char → List String
  | [], acc => [String.mk acc.reverse]
  | c :: rest, acc =>
    if c = '\n' then String.mk acc.reverse :: splitLinesAux rest []
    else splitLinesAux rest (c :: acc)

/-- Python `str.split('\n')` (empty pieces are kept). -/
def splitLines (s : String) : List String :=
  splitLinesAux s.toList []

/-- `main` line 226:
`[prompt.strip() for prompt in prompts_input.split('\n') if prompt.strip()]`. -/
def parsePrompts (promptsInput : String) : List String :=
  ((splitLines promptsInput).filter (fun p => pyStrip p ≠ "")).map pyStrip

/-- The click handler of `main` (lines 220-274), up to the list of results the
batch produces.  `none` models every path that returns before the processing
loop runs: blank input (the `process_button and prompts_input.strip()` guard),
missing API key, more than 50 prompts, an empty prompt list, and a client
initialization failure (`initOk = false`).  `some results` models a batch that
ran. -/
def processClick (prov : Provider) (step : String → Except String SearchResult)
    (initOk : Bool) (apiKey promptsInput : String) : Option (List SearchResult) :=
  if pyStrip promptsInput = "" then none
  else if apiKey = "" then none
  else
    let prompts := parsePrompts promptsInput
    if prompts.length > 50 then none
    else if prompts.length = 0 then none
    else if initOk then some (runBatch prov step prompts) else none

/-! ### Session accumulation (`main`, lines 150-154, 200-203, 273-274) -/

/-- The session state: `st.session_state.results` and
`st.session_state.processed_count`. -/
structure SessionState where
  results : List SearchResult
  processed_count : Nat
deriving DecidableEq, Repr

/-- The `Clear All Results` button (lines 200-203). -/
def clearSession : SessionState :=
  { results := [], processed_count := 0 }

/-- Lines 273-274: `st.session_state.results.extend(results)` and
`st.session_state.processed_count += len(prompts)`. -/
def processBatchIntoSession (s : SessionState) (prov : Provider)
    (step : String → Except String SearchResult) (prompts : List String) :
    SessionState :=
  { results := s.results ++ runBatch prov step prompts
    processed_count := s.processed_count + prompts.length }

/-! ### JSON export (`main`, line 359: `json.dumps(st.session_state.results, indent=2)`) -/

/-- A JSON value, the image of `json.dumps` on the result dicts (only the
constructors those dicts can produce are needed). -/
inductive Json where
  | null : Json
  | bool (b : Bool) : Json
  | str (s : String) : Json
  | arr (items : List Json) : Json
  | obj (fields : List (String × Json)) : Json
deriving Repr

/-- The `"provider"` string stored in the result dicts. -/
def providerName : Provider → String
  | Provider.gemini => "Gemini"
  | Provider.openai => "OpenAI"

/-- A possibly-`None` string value, as `json.dumps` renders it. -/
def encodeOptStr : Option String → Json
  | none => Json.null
  | some s => Json.str s

/-- One `cited_sources` entry as `json.dumps` renders it. -/
def encodeSource (s : CitedSource) : Json :=
  Json.obj [("title", encodeOptStr s.title), ("url", encodeOptStr s.url)]

/-- One result dict as `json.dumps` renders it (dict insertion order). -/
def encodeResult (r : SearchResult) : Json :=
  Json.obj
    [ ("original_prompt", Json.str r.original_prompt)
    , ("provider", Json.str (providerName r.provider))
    , ("web_search_used", Json.bool r.web_search_used)
    , ("web_search_queries", Json.arr (r.web_search_queries.map Json.str))
    , ("cited_sources", Json.arr (r.cited_sources.map encodeSource))
    , ("final_response", Json.str r.final_response) ]

/-- The exported structure: the JSON array of all accumulated results. -/
def encodeResults (rs : List SearchResult) : Json :=
  Json.arr (rs.map encodeResult)

/-- Modelled from the spec: src contains no parser for the export (the spec's
round-trip property speaks of "parsing it back"), so this decoder inverts the
field names and layout `json.dumps` emits for one `cited_sources` entry. -/
def decodeOptStr : Json → Option (Option String)
  | Json.null => some none
  | Json.str s => some (some s)
  | _ => none

/-- Modelled from the spec: inverse of `providerName`. -/
def decodeProvider : String → Option Provider
  | "Gemini" => some Provider.gemini
  | "OpenAI" => some Provider.openai
  | _ => none

/-- Modelled from the spec: parse one `cited_sources` entry. -/
def decodeSource : Json → Option CitedSource
  | Json.obj [("title", jt), ("url", ju)] => do
    let t ← decodeOptStr jt
    let u ← decodeOptStr ju
    some { title := t, url := u }
  | _ => none

/-- Modelled from the spec: parse a JSON array of strings. -/
def decodeStrList : List Json → Option (List String)
  | [] => some []
  | Json.str s :: rest => (decodeStrList rest).map (fun l => s :: l)
  | _ => none

/-- Modelled from the spec: parse a JSON array of `cited_sources` entries. -/
def decodeSourceList : List Json → Option (List CitedSource)
  | [] => some []
  | j :: rest => do
    let s ← decodeSource j
    let l ← decodeSourceList rest
    some (s :: l)

/-- Modelled from the spec: parse one result dict. -/
def decodeResult : Json → Option SearchResult
  | Json.obj
      [ ("original_prompt", Json.str p), ("provider", Json.str prov)
      , ("web_search_used", Json.bool b), ("web_search_queries", Json.arr qs)
      , ("cited_sources", Json.arr srcs), ("final_response", Json.str fr) ] => do
    let provider ← decodeProvider prov
    let queries ← decodeStrList qs
    let sources ← decodeSourceList srcs
    some
      { original_prompt := p
        provider := provider
        web_search_used := b
        web_search_queries := queries
        cited_sources := sources
        final_response := fr }
  | _ => none

/-- Modelled from the spec: parse a list of result dicts. -/
def decodeResultList : List Json → Option (List SearchResult)
  | [] => some []
  | j :: rest => do
    let r ← decodeResult j
    let l ← decodeResultList rest
    some (r :: l)

/-- Modelled from the spec: parse the exported structure back into the
accumulated result list. -/
def decodeResults : Json → Option (List SearchResult)
  | Json.arr items => decodeResultList items
  | _ => none

/-! ### Helper lemmas -/

lemma process_prompt_gemini_ok_original_prompt (prompt : String)
    (resp : GeminiResponse) (r : SearchResult)
    (h : process_prompt_gemini prompt resp = Except.ok r) :
    r.original_prompt = prompt := by
  obtain ⟨cands⟩ := resp
  cases cands with
  | nil => exact absurd h (by simp [process_prompt_gemini])
  | cons cand rest =>
    simp only [process_prompt_gemini, Except.ok.injEq] at h
    rw [← h]

lemma process_prompt_openai_original_prompt (prompt : String)
    (c : Except String OpenAIResponse) :
    (process_prompt_openai prompt c).original_prompt = prompt := by
  cases c <;> rfl

lemma batchEntry_original_prompt (prov : Provider)
    (step : String → Except String SearchResult) (p : String)
    (hstep : ∀ r, step p = Except.ok r → r.original_prompt = p) :
    (batchEntry prov step p).original_prompt = p := by
  unfold batchEntry
  cases h : step p with
  | ok r => exact hstep r h
  | error e => rfl

lemma geminiStep_ok_original_prompt (call : String → Except String GeminiResponse)
    (p : String) (r : SearchResult) (h : geminiStep call p = Except.ok r) :
    r.original_prompt = p := by
  unfold geminiStep at h
  cases hc : call p with
  | error e => rw [hc] at h; simp [Except.bind] at h
  | ok resp =>
    rw [hc] at h
    simp only [Except.bind] at h
    exact process_prompt_gemini_ok_original_prompt p resp r h

lemma geminiQueriesFields_flag (gm : GroundingMetadata) :
    (geminiQueriesFields gm).1 = true ↔ (geminiQueriesFields gm).2 ≠ [] := by
  unfold geminiQueriesFields
  cases gm.web_search_queries with
  | none => simp
  | some queries =>
    cases h : queries.isEmpty with
    | true => simp [h, List.isEmpty_iff.mp h]
    | false =>
      have hne : queries ≠ [] := by
        intro heq
        rw [heq] at h
        simp at h
      simp [h, hne]

lemma openaiQueriesLoop_flag (outputs : List OpenAIOutput) (used : Bool)
    (queries : List String) (h : used = true ↔ queries ≠ []) :
    (openaiQueriesLoop outputs used queries).1 = true ↔
      (openaiQueriesLoop outputs used queries).2 ≠ [] := by
  induction outputs generalizing used queries with
  | nil => simpa [openaiQueriesLoop] using h
  | cons o rest ih =>
    cases ha : o.action with
    | none =>
      simp only [openaiQueriesLoop, ha]
      exact ih used queries h
    | some a =>
      cases hq : a.query with
      | none =>
        simp only [openaiQueriesLoop, ha, hq]
        exact ih used queries h
      | some q =>
        simp only [openaiQueriesLoop, ha, hq]
        exact ih true (queries ++ [q]) (by simp)

/-- C1: for every valid input batch of prompts (either provider, any call
outcomes), the batch runner's output has exactly the length of the input
prompt list, and the result at index `i` has `original_prompt` equal to the
input prompt at index `i`, in input order — even when some prompts fail. -/
theorem c1_batch_length_and_prompt_order
    (gcall : String → Except String GeminiResponse)
    (ocall : String → Except String OpenAIResponse) (prompts : List String) :
    (runBatchGemini gcall prompts).length = prompts.length ∧
    (runBatchOpenai ocall prompts).length = prompts.length ∧
    (∀ i : Nat, ((runBatchGemini gcall prompts)[i]?).map SearchResult.original_prompt
      = prompts[i]?) ∧
    (∀ i : Nat, ((runBatchOpenai ocall prompts)[i]?).map SearchResult.original_prompt
      = prompts[i]?) := by
  refine ⟨List.length_map _ _, List.length_map _ _, ?_, ?_⟩
  · intro i
    show ((prompts.map (batchEntry Provider.gemini (geminiStep gcall)))[i]?).map
      SearchResult.original_prompt = prompts[i]?
    rw [List.getElem?_map]
    cases prompts[i]? with
    | none => rfl
    | some p =>
      simp only [Option.map_some']
      rw [batchEntry_original_prompt Provider.gemini (geminiStep gcall) p
        (geminiStep_ok_original_prompt gcall p)]
  · intro i
    show ((prompts.map (batchEntry Provider.openai (openaiStep ocall)))[i]?).map
      SearchResult.original_prompt = prompts[i]?
    rw [List.getElem?_map]
    cases prompts[i]? with
    | none => rfl
    | some p =>
      simp only [Option.map_some']
      rw [batchEntry_original_prompt Provider.openai (openaiStep ocall) p
        (fun r h => by
          simp only [openaiStep, Except.ok.injEq] at h
          rw [← h]
          exact process_prompt_openai_original_prompt p (ocall p))]

/-- C2: for every `SearchResult` produced by the Gemini normalizer, by the
OpenAI normalizer (including its internal failure path), or by the batch
runner's failure path, `web_search_used` is true if and only if
`web_search_queries` is non-empty. -/
theorem c2_flag_iff_queries (prompt e : String) (prov : Provider)
    (gresp : GeminiResponse) (ocall : Except String OpenAIResponse)
    (r : SearchResult) (hg : process_prompt_gemini prompt gresp = Except.ok r) :
    (r.web_search_used = true ↔ r.web_search_queries ≠ []) ∧
    ((process_prompt_openai prompt ocall).web_search_used = true ↔
      (process_prompt_openai prompt ocall).web_search_queries ≠ []) ∧
    ((errorResult prov prompt e).web_search_used = true ↔
      (errorResult prov prompt e).web_search_queries ≠ []) := by
  refine ⟨?_, ?_, by simp [errorResult]⟩
  · obtain ⟨cands⟩ := gresp
    cases cands with
    | nil => exact absurd hg (by simp [process_prompt_gemini])
    | cons cand rest =>
      simp only [process_prompt_gemini, Except.ok.injEq] at hg
      rw [← hg]
      cases cand.grounding_metadata with
      | none => simp
      | some gm => exact geminiQueriesFields_flag gm
  · cases ocall with
    | error e' => simp [process_prompt_openai, initResult]
    | ok resp =>
      show (normalize_openai prompt resp).web_search_used = true ↔
        (normalize_openai prompt resp).web_search_queries ≠ []
      simp only [normalize_openai, initResult]
      exact openaiQueriesLoop_flag resp.output false [] (by simp)

/-- Witness for C2 at concrete inputs: a Gemini response with one bare
candidate, a failed OpenAI call, and a batch-runner error entry. -/
theorem c2_flag_iff_queries_witness :
    ((initResult "q" Provider.gemini).web_search_used = true ↔
      (initResult "q" Provider.gemini).web_search_queries ≠ []) ∧
    ((process_prompt_openai "q" (Except.error "boom")).web_search_used = true ↔
      (process_prompt_openai "q" (Except.error "boom")).web_search_queries ≠ []) ∧
    ((errorResult Provider.openai "q" "boom").web_search_used = true ↔
      (errorResult Provider.openai "q" "boom").web_search_queries ≠ []) :=
  c2_flag_iff_queries "q" "boom" Provider.openai
    { candidates := [{ grounding_metadata := none, content := none }] }
    (Except.error "boom") (initResult "q" Provider.gemini) rfl

/-- C3: when the per-prompt processing for prompt `i` raises, the batch
runner's entry at index `i` is the substituted error result — its
`final_response` is exactly `"Error: "` followed by the exception message,
`web_search_used` is false, `web_search_queries` and `cited_sources` are empty
— and the entry at index `i + 1` is still the normal processing of the prompt
at index `i + 1` (one failure never aborts the batch).  For OpenAI, a raising
call is caught inside `process_prompt_openai` and yields the same error
shape. -/
theorem c3_failure_isolation
    (gcall : String → Except String GeminiResponse)
    (ocall : String → Except String OpenAIResponse)
    (prompts : List String) (i : Nat) (p e : String)
    (hp : prompts[i]? = some p) (hf : geminiStep gcall p = Except.error e) :
    (runBatchGemini gcall prompts)[i]? = some (errorResult Provider.gemini p e) ∧
    (errorResult Provider.gemini p e).final_response = "Error: " ++ e ∧
    (errorResult Provider.gemini p e).web_search_used = false ∧
    (errorResult Provider.gemini p e).web_search_queries = [] ∧
    (errorResult Provider.gemini p e).cited_sources = [] ∧
    (runBatchGemini gcall prompts)[i + 1]?
      = (prompts[i + 1]?).map (batchEntry Provider.gemini (geminiStep gcall)) ∧
    (∀ q, ocall q = Except.error e →
      process_prompt_openai q (ocall q) = errorResult Provider.openai q e) := by
  refine ⟨?_, rfl, rfl, rfl, rfl, ?_, ?_⟩
  · show ((prompts.map (batchEntry Provider.gemini (geminiStep gcall)))[i]?)
      = some (errorResult Provider.gemini p e)
    rw [List.getElem?_map, hp, Option.map_some']
    unfold batchEntry
    rw [hf]
  · show ((prompts.map (batchEntry Provider.gemini (geminiStep gcall)))[i + 1]?)
      = (prompts[i + 1]?).map (batchEntry Provider.gemini (geminiStep gcall))
    rw [List.getElem?_map]
  · intro q hq
    show process_prompt_openai q (ocall q) = errorResult Provider.openai q e
    rw [hq]
    rfl

/-- A network call that always fails, for the C3 witness. -/
def failGeminiCall : String → Except String GeminiResponse :=
  fun _ => Except.error "boom"

/-- A network call that always fails, for the C3 witness. -/
def failOpenaiCall : String → Except String OpenAIResponse :=
  fun _ => Except.error "boom"

/-- Witness for C3 at a concrete two-prompt batch whose first call fails. -/
theorem c3_failure_isolation_witness :
    (runBatchGemini failGeminiCall ["a", "b"])[0]?
      = some (errorResult Provider.gemini "a" "boom") ∧
    (errorResult Provider.gemini "a" "boom").final_response = "Error: " ++ "boom" ∧
    (errorResult Provider.gemini "a" "boom").web_search_used = false ∧
    (errorResult Provider.gemini "a" "boom").web_search_queries = [] ∧
    (errorResult Provider.gemini "a" "boom").cited_sources = [] ∧
    (runBatchGemini failGeminiCall ["a", "b"])[0 + 1]?
      = (["a", "b"][0 + 1]?).map (batchEntry Provider.gemini (geminiStep failGeminiCall)) ∧
    (∀ q, failOpenaiCall q = Except.error "boom" →
      process_prompt_openai q (failOpenaiCall q) = errorResult Provider.openai q "boom") :=
  c3_failure_isolation failGeminiCall failOpenaiCall ["a", "b"] 0 "a" "boom" rfl rfl

/-- C4 counterexample: a Gemini raw response with every optional section
absent — because it has no candidates at all — makes the normalizer raise
(`response.candidates[0]` is an `IndexError`), so "the normalizer returns a
`SearchResult` without raising" fails at this input. -/
theorem c4_counterexample :
    process_prompt_gemini "p" { candidates := [] }
      = Except.error "list index out of range" := rfl

/-- C4 amended: the Gemini normalizer returns a `SearchResult` without
raising exactly when the response has at least one candidate; given that, any
combination of absent or partially populated grounding metadata, citation
list and text content parts is tolerated.  (The OpenAI normalizer is total by
construction: its `try/except` converts every exception into an error-shaped
result.) -/
theorem c4_amended_no_raise_iff_candidate (prompt : String) (resp : GeminiResponse) :
    (∃ r, process_prompt_gemini prompt resp = Except.ok r) ↔ resp.candidates ≠ [] := by
  obtain ⟨cands⟩ := resp
  cases cands with
  | nil => simp [process_prompt_gemini]
  | cons cand rest =>
    simp only [process_prompt_gemini]
    constructor
    · intro _
      simp
    · intro _
      exact ⟨_, rfl⟩

lemma annotationLoop_eq_filterMap (anns : List OpenAIAnnotation)
    (acc : List CitedSource) :
    annotationLoop anns acc = acc ++ anns.filterMap (fun a =>
      match a.url, a.title with
      | some u, some t => some { title := some t, url := some u }
      | _, _ => none) := by
  induction anns generalizing acc with
  | nil => simp [annotationLoop]
  | cons a rest ih =>
    cases hu : a.url with
    | none => simp [annotationLoop, hu, List.filterMap_cons, ih]
    | some u =>
      cases ht : a.title with
      | none => simp [annotationLoop, hu, ht, List.filterMap_cons, ih]
      | some t => simp [annotationLoop, hu, ht, List.filterMap_cons, ih]

lemma geminiCitedLoop_eq_filterMap (chunks : List GroundingChunk)
    (acc : List CitedSource) :
    geminiCitedLoop chunks acc = acc ++ chunks.filterMap (fun ch =>
      ch.web.map (fun w => { title := w.title, url := w.uri })) := by
  induction chunks generalizing acc with
  | nil => simp [geminiCitedLoop]
  | cons ch rest ih =>
    cases hw : ch.web with
    | none => simp [geminiCitedLoop, hw, List.filterMap_cons, ih]
    | some w => simp [geminiCitedLoop, hw, List.filterMap_cons, ih]

/-- C5 counterexample: a Gemini grounding chunk whose `web` payload is missing
its title is NOT excluded — the normalizer appends it with a `None` title,
because `process_prompt_gemini` only checks `chunk.web`, never the title or
url fields. -/
theorem c5_counterexample :
    process_prompt_gemini "p"
      { candidates :=
        [ { grounding_metadata :=
              some { web_search_queries := none
                     grounding_chunks :=
                       some [{ web := some { title := none, uri := some "https://example.com" } }] }
            content := none } ] }
      = Except.ok
          { original_prompt := "p"
            provider := Provider.gemini
            web_search_used := false
            web_search_queries := []
            cited_sources := [{ title := none, url := some "https://example.com" }]
            final_response := "" } := rfl

/-- C5 amended: the OpenAI normalizer behaves as claimed — an annotation
missing either its `url` or its `title` field is silently skipped, and every
annotation carrying both is appended as `{title, url}` in reported order.
The Gemini normalizer instead appends EVERY chunk that has a `web` payload,
copying its (possibly absent) title and uri verbatim; only chunks without a
`web` payload are skipped. -/
theorem c5_amended_citation_filtering (anns : List OpenAIAnnotation)
    (chunks : List GroundingChunk) (prompt : String) (resp : OpenAIResponse) :
    annotationLoop anns [] = anns.filterMap (fun a =>
      match a.url, a.title with
      | some u, some t => some { title := some t, url := some u }
      | _, _ => none) ∧
    geminiCitedLoop chunks [] = chunks.filterMap (fun ch =>
      ch.web.map (fun w => { title := w.title, url := w.uri })) ∧
    (normalize_openai prompt resp).cited_sources = openaiCitedLoop resp.output [] := by
  refine ⟨?_, ?_, rfl⟩
  · simpa using annotationLoop_eq_filterMap anns []
  · simpa using geminiCitedLoop_eq_filterMap chunks []

lemma geminiTextLoop_eq_findSome (parts : List GeminiPart) (acc : String) :
    geminiTextLoop parts acc = (parts.findSome? GeminiPart.text).getD acc := by
  induction parts with
  | nil => simp [geminiTextLoop]
  | cons part rest ih =>
    cases ht : part.text with
    | none => simp [geminiTextLoop, ht, List.findSome?_cons, ih]
    | some t => simp [geminiTextLoop, ht, List.findSome?_cons]

lemma contentTextLoop_eq_findSome (contents : List OpenAIContent) (acc : String) :
    contentTextLoop contents acc = (contents.findSome? OpenAIContent.text).getD acc := by
  induction contents with
  | nil => simp [contentTextLoop]
  | cons c rest ih =>
    cases ht : c.text with
    | none => simp [contentTextLoop, ht, List.findSome?_cons, ih]
    | some t => simp [contentTextLoop, ht, List.findSome?_cons]

lemma openaiTextLoop_eq_last (outputs : List OpenAIOutput) (acc : String) :
    openaiTextLoop outputs acc
      = (outputs.reverse.findSome? (fun o => o.content.bind
          (fun cs => cs.findSome? OpenAIContent.text))).getD acc := by
  induction outputs generalizing acc with
  | nil => simp [openaiTextLoop]
  | cons o rest ih =>
    have hstep : openaiTextLoop (o :: rest) acc
        = openaiTextLoop rest
            ((o.content.bind (fun cs => cs.findSome? OpenAIContent.text)).getD acc) := by
      cases hc : o.content with
      | none => simp [openaiTextLoop, hc]
      | some cs => simp [openaiTextLoop, hc, contentTextLoop_eq_findSome]
    rw [hstep, ih, List.reverse_cons, List.findSome?_append]
    cases h : rest.reverse.findSome? (fun o => o.content.bind
        (fun cs => cs.findSome? OpenAIContent.text)) with
    | some t => simp [h]
    | none =>
      simp only [h, Option.none_or, List.findSome?_cons, List.findSome?_nil]
      cases hg : o.content.bind (fun cs => List.findSome? OpenAIContent.text cs) with
      | some t => simp [hg]
      | none => simp [hg]

/-- The raw OpenAI response used by the C6 counterexample: two outputs, each
with one text-bearing content part. -/
def twoTextResponse : OpenAIResponse :=
  { output :=
    [ { action := none, content := some [{ annotations := none, text := some "A" }] }
    , { action := none, content := some [{ annotations := none, text := some "B" }] } ] }

/-- C6 counterexample: scanning `twoTextResponse`'s content parts in order,
the first text-bearing part holds `"A"`, yet the OpenAI normalizer reports
`final_response = "B"` — the source's `break` exits only the inner content
loop, so the second output's text overwrites the first's (not
first-match-wins). -/
theorem c6_counterexample :
    ((twoTextResponse.output.flatMap (fun o => o.content.getD [])).findSome?
        OpenAIContent.text = some "A") ∧
    (process_prompt_openai "p" (Except.ok twoTextResponse)).final_response = "B" :=
  ⟨rfl, rfl⟩

/-- C6 amended: the Gemini normalizer does assign `final_response` from the
first text-bearing content part and stops scanning (empty string, not an
error, when no text part exists).  The OpenAI normalizer instead takes, for
each output with content, the first text-bearing content of that output, with
later outputs overwriting earlier ones — so `final_response` is the first
text-bearing content of the LAST output that has one, and the empty string
when none exists. -/
theorem c6_amended_text_extraction (parts : List GeminiPart)
    (outputs : List OpenAIOutput) (prompt : String) (resp : OpenAIResponse) :
    geminiTextLoop parts "" = (parts.findSome? GeminiPart.text).getD "" ∧
    openaiTextLoop outputs ""
      = (outputs.reverse.findSome? (fun o => o.content.bind
          (fun cs => cs.findSome? OpenAIContent.text))).getD "" ∧
    (normalize_openai prompt resp).final_response = openaiTextLoop resp.output "" :=
  ⟨geminiTextLoop_eq_findSome parts "", openaiTextLoop_eq_last outputs "", rfl⟩

/-- `n` prompts, one per line, for the C7 boundary checks. -/
def promptLines : Nat → String
  | 0 => ""
  | 1 => "p"
  | n + 2 => "p\n" ++ promptLines (n + 1)

/-- C7: a batch of more than 50 prompts, an empty prompt list, or a missing
credential is rejected with zero `SearchResult` entries produced (and the
rejection is independent of the per-prompt processing, so no network call is
reached); at the boundary, exactly 50 prompts are accepted — producing one
entry per prompt — and 51 are rejected. -/
theorem c7_input_validation (prov : Provider)
    (step : String → Except String SearchResult) (initOk : Bool)
    (apiKey promptsInput : String) :
    ((parsePrompts promptsInput).length > 50 →
      processClick prov step initOk apiKey promptsInput = none) ∧
    (processClick prov step initOk "" promptsInput = none) ∧
    (parsePrompts promptsInput = [] →
      processClick prov step initOk apiKey promptsInput = none) ∧
    (Option.map List.length
        (processClick Provider.gemini (geminiStep failGeminiCall) true "key"
          (promptLines 50)) = some 50) ∧
    processClick Provider.gemini (geminiStep failGeminiCall) true "key"
      (promptLines 51) = none := by
  refine ⟨?_, ?_, ?_, by decide, by decide⟩
  · intro h
    unfold processClick
    split
    · rfl
    split
    · rfl
    simp [h]
  · unfold processClick
    split
    · rfl
    simp
  · intro h
    unfold processClick
    split
    · rfl
    split
    · rfl
    simp [h]

/-- Witness for C7: a 51-prompt input, a whitespace-only input, and a missing
API key are each rejected. -/
theorem c7_input_validation_witness :
    processClick Provider.gemini (geminiStep failGeminiCall) true "key"
      (promptLines 51) = none ∧
    processClick Provider.gemini (geminiStep failGeminiCall) true "key" "  " = none ∧
    processClick Provider.gemini (geminiStep failGeminiCall) true "" (promptLines 3)
      = none :=
  ⟨(c7_input_validation Provider.gemini (geminiStep failGeminiCall) true "key"
      (promptLines 51)).1 (by decide),
   (c7_input_validation Provider.gemini (geminiStep failGeminiCall) true "key"
      "  ").2.2.1 (by decide),
   (c7_input_validation Provider.gemini (geminiStep failGeminiCall) true "x"
      (promptLines 3)).2.1⟩

lemma decodeOptStr_encodeOptStr (s : Option String) :
    decodeOptStr (encodeOptStr s) = some s := by
  cases s <;> rfl

lemma decodeProvider_providerName (p : Provider) :
    decodeProvider (providerName p) = some p := by
  cases p <;> rfl

lemma decodeSource_encodeSource (s : CitedSource) :
    decodeSource (encodeSource s) = some s := by
  obtain ⟨t, u⟩ := s
  cases t <;> cases u <;> rfl

lemma decodeStrList_map_str (l : List String) :
    decodeStrList (l.map Json.str) = some l := by
  induction l with
  | nil => rfl
  | cons s rest ih => simp [decodeStrList, ih]

lemma decodeSourceList_map_encodeSource (l : List CitedSource) :
    decodeSourceList (l.map encodeSource) = some l := by
  induction l with
  | nil => rfl
  | cons s rest ih =>
    simp [decodeSourceList, ih, decodeSource_encodeSource, Option.bind]

lemma decodeResult_encodeResult (r : SearchResult) :
    decodeResult (encodeResult r) = some r := by
  obtain ⟨p, prov, b, qs, srcs, fr⟩ := r
  simp [encodeResult, decodeResult, decodeProvider_providerName,
    decodeStrList_map_str, decodeSourceList_map_encodeSource, Option.bind]

/-- C8: parsing the structured-text (JSON) export of any accumulated result
set reproduces the same `SearchResult` values field-for-field — the export is
a lossless round-trip. -/
theorem c8_export_roundtrip (rs : List SearchResult) :
    decodeResults (encodeResults rs) = some rs := by
  show decodeResultList (rs.map encodeResult) = some rs
  induction rs with
  | nil => rfl
  | cons r rest ih =>
    simp [decodeResultList, ih, decodeResult_encodeResult, Option.bind]

/-- C9: a Gemini raw response whose grounding metadata lists grounding chunks
but no web search queries yields `cited_sources` non-empty while
`web_search_used` is false — citation extraction is independent of query
extraction, and no invariant couples `cited_sources` to `web_search_used`. -/
theorem c9_citations_without_search :
    process_prompt_gemini "p"
      { candidates :=
        [ { grounding_metadata :=
              some { web_search_queries := none
                     grounding_chunks :=
                       some [{ web := some { title := some "Example"
                                             uri := some "https://example.org" } }] }
            content := some { parts := some [{ text := some "answer" }] } } ] }
      = Except.ok
          { original_prompt := "p"
            provider := Provider.gemini
            web_search_used := false
            web_search_queries := []
            cited_sources := [{ title := some "Example", url := some "https://example.org" }]
            final_response := "answer" } := rfl

/-- C10: processing a batch appends exactly one entry per input prompt to the
end of the session's accumulated results, leaves every previously accumulated
result unchanged (the old list is the unchanged initial segment), only grows
the collection, and only the explicit clear operation resets it to empty. -/
theorem c10_session_frame (s : SessionState) (prov : Provider)
    (step : String → Except String SearchResult) (prompts : List String) :
    (processBatchIntoSession s prov step prompts).results.take s.results.length
      = s.results ∧
    (processBatchIntoSession s prov step prompts).results.drop s.results.length
      = runBatch prov step prompts ∧
    (processBatchIntoSession s prov step prompts).results.length
      = s.results.length + prompts.length ∧
    s.results.length ≤ (processBatchIntoSession s prov step prompts).results.length ∧
    clearSession.results = [] ∧ clearSession.processed_count = 0 := by
  refine ⟨?_, ?_, ?_, ?_, rfl, rfl⟩
  · exact List.take_left s.results (runBatch prov step prompts)
  · exact List.drop_left s.results (runBatch prov step prompts)
  · show (s.results ++ runBatch prov step prompts).length = s.results.length + prompts.length
    rw [List.length_append]
    rw [show (runBatch prov step prompts).length = prompts.length from
      List.length_map _ _]
  · show s.results.length ≤ (s.results ++ runBatch prov step prompts).length
    rw [List.length_append]
    exact Nat.le_add_right _ _
